import Mathlib

/-!
Verification of the educational-interaction analytics engine: the
`AggregationAgent` (interaction log, per-student metrics, FAQ clustering,
system health) and the `TakeawayAgent` (session takeaways, success-pattern
history, RAG insight store).  Python dictionaries with a fixed key set are
embedded as structures; a key read with `.get(k, default)` that is never
stored is embedded as the default; timestamps (ISO-8601 strings compared
chronologically in the source) are embedded as rational numbers of hours
since the epoch; Python floats are embedded as rationals.
-/

/-! ## String and list utilities (embedding Python primitives) -/

/-- The characters matched by Python's regex `\w` (ASCII range; all texts
handled by the agents are ASCII). -/
def isWordChar (c : Char) : Bool := c.isAlphanum || c = '_'

/-- Split a character list into maximal runs of characters satisfying `keep`,
dropping separator characters.  With `keep c = !c.isWhitespace` this is
Python's `str.split()`; with `keep = isWordChar` it is
`re.findall(r'\b\w+\b', text)`. -/
def splitRuns (keep : Char → Bool) : List Char → List Char → List (List Char)
  | [], acc => if acc = [] then [] else [acc.reverse]
  | c :: rest, acc =>
    if keep c then splitRuns keep rest (c :: acc)
    else if acc = [] then splitRuns keep rest []
    else acc.reverse :: splitRuns keep rest []

/-- Python `text.split()`: whitespace-separated words. -/
def pyWords (s : String) : List String :=
  (splitRuns (fun c => !c.isWhitespace) s.data []).map String.mk

/-- Python `re.findall(r'\b\w+\b', text)`: maximal `\w` runs. -/
def findWordTokens (s : String) : List String :=
  (splitRuns isWordChar s.data []).map String.mk

/-- Python `str.lower()` (ASCII). -/
def pyLower (s : String) : String := String.mk (s.data.map Char.toLower)

/-- Whether `pat` is a prefix of `s` (on character lists). -/
def charsStartWith : List Char → List Char → Bool
  | _, [] => true
  | [], _ :: _ => false
  | c :: cs, p :: ps => c = p && charsStartWith cs ps

/-- Whether `pat` occurs as a contiguous substring of `s` (on character lists). -/
def charsContain (pat : List Char) : List Char → Bool
  | [] => charsStartWith [] pat
  | c :: rest => charsStartWith (c :: rest) pat || charsContain pat rest

/-- Python's `pat in s` substring test. -/
def strContains (s pat : String) : Bool := charsContain pat.data s.data

/-- Python string `<=` (lexicographic by code point). -/
def charsLe : List Char → List Char → Bool
  | [], _ => true
  | _ :: _, [] => false
  | a :: as, b :: bs => if a = b then charsLe as bs else decide (a < b)

/-- Python string `<=` on `String`. -/
def strLe (a b : String) : Bool := charsLe a.data b.data

/-- Insert `a` into a sorted list, before the first element `b` with
`le a b`; keeps a stable sort stable. -/
def insertSorted (le : α → α → Bool) (a : α) : List α → List α
  | [] => [a]
  | b :: l => if le a b then a :: b :: l else b :: insertSorted le a l

/-- Stable insertion sort.  Python's `list.sort` / `sorted` are stable, and a
stable sort's output is determined by the (total) comparison, so this embeds
them faithfully; `reverse=True` is embedded by flipping the comparison. -/
def insertionSort (le : α → α → Bool) : List α → List α
  | [] => []
  | a :: l => insertSorted le a (insertionSort le l)

/-- Python `l[-n:]`: the last `n` elements (the whole list if shorter). -/
def takeLast (n : ℕ) (l : List α) : List α := l.drop (l.length - n)

/-- Python `statistics.mean` (all call sites guard against empty lists). -/
def listMean (l : List ℚ) : ℚ := l.sum / l.length

/-- Python `statistics.variance` (sample variance; call sites guard
`len > 1`). -/
def sampleVariance (l : List ℚ) : ℚ :=
  (l.map (fun x => (x - listMean l) ^ 2)).sum / ((l.length : ℚ) - 1)

/-- Python `round(x, 2)`.  CPython rounds ties to even; ties at the third
decimal never arise in the properties below, so round-half-up is an
equivalent embedding there. -/
def round2 (x : ℚ) : ℚ := (⌊100 * x + 1 / 2⌋ : ℤ) / 100

/-- Python `min(...)` over a nonempty generator, seeded with a first value. -/
def listMinQ (x : ℚ) (l : List ℚ) : ℚ := l.foldl min x

/-- Python `max(...)` over a nonempty generator, seeded with a first value. -/
def listMaxQ (x : ℚ) (l : List ℚ) : ℚ := l.foldl max x

/-! ## Data model of `AggregationAgent` (src/agents/aggregation_agent.py) -/

/-- The agent-response dictionary read by `log_interaction`; each field holds
the value of `response.get(key, default)`, with a missing key embedded as the
documented default (`''`, `[]`, `'medium'`, `'text'`, `{}`). -/
structure Response where
  response : String
  concepts_covered : List String
  difficulty_level : String
  response_type : String
  preference_indicators : List (String × String)
deriving Repr, DecidableEq, Inhabited

/-- The `metadata` dictionary: the only key the core ever reads is
`metadata.get('errors', False)` (in `_assess_system_health`). -/
structure Metadata where
  errors : Bool
deriving Repr, DecidableEq, Inhabited

/-- The engagement-indicator flags computed by
`_extract_engagement_indicators`; a key present in the Python dict is a
`true` field. -/
structure EngagementIndicators where
  politeness : Bool
  asks_questions : Bool
  seeks_understanding : Bool
  detailed_response : Bool
deriving Repr, DecidableEq, Inhabited

/-- Embeds `_extract_engagement_indicators(message, response)`. -/
def extract_engagement_indicators (message : String) (response : Response) :
    EngagementIndicators :=
  let message_lower := pyLower message
  { politeness := strContains message_lower "help" ||
      strContains message_lower "please" || strContains message_lower "can you"
    asks_questions := strContains message "?"
    seeks_understanding := strContains message_lower "understand" ||
      strContains message_lower "get it" || strContains message_lower "clear"
    detailed_response := response.response.length > 100 }

/-- The `interaction_data` dictionary built by `log_interaction`
(aggregation_agent.py lines 65-77).  Note the keys it stores: there is a
`message_length` key but no `message` key. -/
structure Interaction where
  timestamp : ℚ
  student_id : String
  session_id : String
  message_length : ℕ
  response_length : ℕ
  concepts_covered : List String
  difficulty_level : String
  response_type : String
  engagement_indicators : EngagementIndicators
  learning_indicators : List (String × String)
  metadata : Metadata
deriving Repr, DecidableEq, Inhabited

/-- Builds the `interaction_data` dictionary of `log_interaction`
(`now` embeds `datetime.utcnow()`). -/
def mkInteraction (now : ℚ) (student_id message : String) (response : Response)
    (session_id : String) (metadata : Option Metadata) : Interaction :=
  { timestamp := now
    student_id := student_id
    session_id := session_id
    message_length := message.length
    response_length := response.response.length
    concepts_covered := response.concepts_covered
    difficulty_level := response.difficulty_level
    response_type := response.response_type
    engagement_indicators := extract_engagement_indicators message response
    learning_indicators := response.preference_indicators
    metadata := metadata.getD { errors := false } }

/-- Embeds `self.student_metrics[student_id]` (a Python dict with set-valued
entries). -/
structure StudentMetrics where
  total_interactions : ℕ
  total_concepts : Finset String
  session_count : Finset String
  first_interaction : ℚ
  last_interaction : ℚ

/-- One pattern entry of `self.learning_patterns[student_id]`. -/
structure LearningPatternData where
  timestamp : ℚ
  concepts : List String
  difficulty : String
  engagement : EngagementIndicators
deriving Repr, DecidableEq, Inhabited

/-- One entry appended to `self.system_metrics[hour_key]`. -/
structure SystemMetricEntry where
  interaction_count : ℕ
  concepts_covered : ℕ
  response_length : ℕ
deriving Repr, DecidableEq, Inhabited

/-- The mutable state of `AggregationAgent`.  The Python hour key
`'%Y-%m-%d-%H'` is embedded as the hour-truncated timestamp `⌊t⌋`. -/
structure AggState where
  interaction_logs : List Interaction
  student_metrics : String → Option StudentMetrics
  learning_patterns : String → List LearningPatternData
  system_metrics : ℤ → List SystemMetricEntry

/-- The freshly constructed `AggregationAgent.__init__` state. -/
def freshAgg : AggState :=
  { interaction_logs := []
    student_metrics := fun _ => none
    learning_patterns := fun _ => []
    system_metrics := fun _ => [] }

/-- Embeds `_update_student_metrics(student_id, interaction_data)`. -/
def update_student_metrics (m : String → Option StudentMetrics)
    (student_id : String) (d : Interaction) : String → Option StudentMetrics :=
  let cur : StudentMetrics :=
    match m student_id with
    | none =>
      { total_interactions := 0
        total_concepts := ∅
        session_count := ∅
        first_interaction := d.timestamp
        last_interaction := d.timestamp }
    | some x => x
  let upd : StudentMetrics :=
    { cur with
      total_interactions := cur.total_interactions + 1
      total_concepts := cur.total_concepts ∪ d.concepts_covered.toFinset
      session_count := insert d.session_id cur.session_count
      last_interaction := d.timestamp }
  fun s => if s = student_id then some upd else m s

/-- Embeds `_update_learning_patterns(student_id, interaction_data)`: append, then
keep the last 50. -/
def update_learning_patterns (lp : String → List LearningPatternData)
    (student_id : String) (d : Interaction) : String → List LearningPatternData :=
  let appended := lp student_id ++
    [{ timestamp := d.timestamp
       concepts := d.concepts_covered
       difficulty := d.difficulty_level
       engagement := d.engagement_indicators }]
  let kept := if appended.length > 50 then takeLast 50 appended else appended
  fun s => if s = student_id then kept else lp s

/-- Embeds `_update_system_metrics(interaction_data)`. -/
def update_system_metrics (sm : ℤ → List SystemMetricEntry) (d : Interaction) :
    ℤ → List SystemMetricEntry :=
  let hour_key := ⌊d.timestamp⌋
  fun h =>
    if h = hour_key then
      sm h ++ [{ interaction_count := 1
                 concepts_covered := d.concepts_covered.length
                 response_length := d.response_length }]
    else sm h

/-- Embeds `log_interaction` (aggregation_agent.py lines 46-93): build the
interaction record, append it to the raw log, update the three aggregate
maps, then truncate the raw log to the last 1000 entries.  The source
performs no validation of `student_id` or `session_id`. -/
def log_interaction (st : AggState) (now : ℚ) (student_id message : String)
    (response : Response) (session_id : String) (metadata : Option Metadata) :
    AggState :=
  let d := mkInteraction now student_id message response session_id metadata
  let logs := st.interaction_logs ++ [d]
  let logs := if logs.length > 1000 then takeLast 1000 logs else logs
  { interaction_logs := logs
    student_metrics := update_student_metrics st.student_metrics student_id d
    learning_patterns := update_learning_patterns st.learning_patterns student_id d
    system_metrics := update_system_metrics st.system_metrics d }

/-! ## Aggregation-side scoring -/

/-- Embeds `_calculate_engagement_score(interactions)` (lines 517-542). -/
def calculate_engagement_score (interactions : List Interaction) : ℚ :=
  if interactions = [] then 0
  else
    let avg_message_length := listMean (interactions.map fun i => (i.message_length : ℚ))
    let message_score := min (avg_message_length / 50) 1
    let sessions := (interactions.map (·.session_id)).toFinset
    let interactions_per_session : ℚ :=
      if sessions ≠ ∅ then (interactions.length : ℚ) / sessions.card else 0
    let frequency_score := min (interactions_per_session / 10) 1
    let all_concepts := interactions.flatMap (·.concepts_covered)
    let unique_concepts := all_concepts.toFinset
    let diversity_score : ℚ :=
      if all_concepts ≠ [] then min ((unique_concepts.card : ℚ) / 5) 1 else 0
    round2 (listMean [message_score, frequency_score, diversity_score])

/-- Embeds `_calculate_consistency_score(timestamps)` (lines 575-598): intervals
between sorted timestamps (the source converts seconds to hours; timestamps
here are already in hours). -/
def consecutiveDiffs : List ℚ → List ℚ
  | a :: b :: rest => (b - a) :: consecutiveDiffs (b :: rest)
  | _ => []

/-- Embeds `_calculate_consistency_score(timestamps)`. -/
def calculate_consistency_score (timestamps : List ℚ) : ℚ :=
  if timestamps.length < 2 then 0
  else
    let sorted_timestamps := insertionSort (fun a b => decide (a ≤ b)) timestamps
    let intervals := consecutiveDiffs sorted_timestamps
    if intervals = [] then 0
    else
      let avg_interval := listMean intervals
      let interval_variance :=
        if intervals.length > 1 then sampleVariance intervals else 0
      if avg_interval > 0 then
        round2 (1 / (1 + interval_variance / avg_interval ^ 2))
      else 0

/-! ## Learning progress (`_calculate_learning_progress`, lines 346-389) -/

/-- The difficulty map `{easy: 1, medium: 2, hard: 3}` read with
`.get(・, 2)`. -/
def difficultyValue (d : String) : ℚ :=
  if d = "easy" then 1 else if d = "medium" then 2 else if d = "hard" then 3 else 2

/-- Result of `_calculate_learning_progress`: with fewer than 2 interactions
the source returns `{'message': 'Insufficient data for progress analysis'}`
(no `progress_trend` key); otherwise the statistics dictionary. -/
inductive ProgressResult where
  | insufficientMessage
  | stats (progress_trend : String) (difficulty_progression : List ℚ)
      (avg_difficulty : ℚ) (concept_mastery : List (String × ℕ))
      (learning_velocity : ℚ)
deriving Repr, DecidableEq

/-- The `progress_trend` field of a `ProgressResult`, when present. -/
def ProgressResult.trend : ProgressResult → Option String
  | .insufficientMessage => none
  | .stats t _ _ _ _ => some t

/-- Embeds `defaultdict(int)` concept counting, in key-insertion order. -/
def bumpCount (key : String) : List (String × ℕ) → List (String × ℕ)
  | [] => [(key, 1)]
  | (k, n) :: rest =>
    if k = key then (k, n + 1) :: rest else (k, n) :: bumpCount key rest

/-- Embeds `_calculate_learning_progress(interactions)`. -/
def calculate_learning_progress (interactions : List Interaction) : ProgressResult :=
  if interactions.length < 2 then .insufficientMessage
  else
    let sorted_interactions :=
      insertionSort (fun a b => decide (a.timestamp ≤ b.timestamp)) interactions
    let difficulty_progression :=
      sorted_interactions.map fun i => difficultyValue i.difficulty_level
    let progress_trend :=
      if difficulty_progression.length ≥ 3 then
        let recent_avg := listMean (takeLast 3 difficulty_progression)
        let earlier_avg :=
          if difficulty_progression.length > 3 then
            listMean (difficulty_progression.take (difficulty_progression.length - 3))
          else difficulty_progression.headD 0
        if recent_avg > earlier_avg * (11 / 10) then "advancing"
        else if recent_avg < earlier_avg * (9 / 10) then "reviewing"
        else "stable"
      else "insufficient_data"
    let concept_mastery :=
      sorted_interactions.foldl
        (fun acc i => i.concepts_covered.foldl (fun a c => bumpCount c a) acc) []
    let learning_velocity :=
      ((sorted_interactions.flatMap (·.concepts_covered)).toFinset.card : ℚ) /
        sorted_interactions.length
    .stats progress_trend difficulty_progression
      (round2 (listMean difficulty_progression)) concept_mastery learning_velocity

/-! ## FAQ clustering (lines 202-253 and 700-721) -/

/-- A question record collected by `get_frequently_asked_questions`. -/
structure Question where
  question : String
  concepts : List String
  timestamp : ℚ
  student_id : String
deriving Repr, DecidableEq, Inhabited

/-- Embeds `interaction.get('message', '')` in
`get_frequently_asked_questions` (line 221).  `log_interaction` stores a
`message_length` key but never a `message` key (lines 65-77), so this lookup
always returns the default `''`. -/
def interactionMessage (_ : Interaction) : String := ""

/-- The group key of `_group_similar_questions`: concepts plus the top 3
extracted key terms, sorted. -/
def groupKey (q : Question) : List String :=
  let question_text := pyLower q.question
  let key_terms := (pyWords question_text).filter fun w =>
    w.length > 3 &&
      !(["what", "how", "why", "when", "where", "does", "this", "that"].contains w)
  insertionSort strLe (q.concepts ++ key_terms.take 3)

/-- Embeds `defaultdict(list)` insertion keyed by the group key, preserving key
insertion order. -/
def addToGroups (groups : List (List String × List Question)) (key : List String)
    (q : Question) : List (List String × List Question) :=
  match groups with
  | [] => [(key, [q])]
  | (k, qs) :: rest =>
    if k = key then (k, qs ++ [q]) :: rest else (k, qs) :: addToGroups rest key q

/-- Embeds `_group_similar_questions(questions)`. -/
def group_similar_questions (questions : List Question) :
    List (List String × List Question) :=
  questions.foldl (fun gs q => addToGroups gs (groupKey q) q) []

/-- One FAQ record of `get_frequently_asked_questions` (`concepts` is a
Python `list(set(...))`, embedded as the set). -/
structure FaqEntry where
  representative_question : String
  frequency : ℕ
  concepts : Finset String
  first_asked : ℚ
  last_asked : ℚ
  unique_students : ℕ
deriving DecidableEq

/-- Builds the FAQ record of one group; groups produced by
`_group_similar_questions` are always nonempty. -/
def faqOfGroup (group_questions : List Question) : FaqEntry :=
  match group_questions with
  | [] =>
    { representative_question := ""
      frequency := 0
      concepts := ∅
      first_asked := 0
      last_asked := 0
      unique_students := 0 }
  | q :: rest =>
    { representative_question := q.question
      frequency := (q :: rest).length
      concepts := ((q :: rest).flatMap (·.concepts)).toFinset
      first_asked := listMinQ q.timestamp (rest.map (·.timestamp))
      last_asked := listMaxQ q.timestamp (rest.map (·.timestamp))
      unique_students := ((q :: rest).map (·.student_id)).toFinset.card }

/-- Embeds `get_frequently_asked_questions(limit, category)` (lines 202-253). -/
def get_frequently_asked_questions (st : AggState) (limit : ℕ)
    (category : Option String) : List FaqEntry :=
  let questions := st.interaction_logs.filterMap fun interaction =>
    let message := interactionMessage interaction
    if strContains message "?" && message.length > 10 then
      some { question := message
             concepts := interaction.concepts_covered
             timestamp := interaction.timestamp
             student_id := interaction.student_id }
    else none
  let question_groups := group_similar_questions questions
  let faq_data := question_groups.filterMap fun g =>
    match category with
    | some cat =>
      if g.2.any (fun q => q.concepts.any fun c => strContains (pyLower c) (pyLower cat))
      then some (faqOfGroup g.2) else none
    | none => some (faqOfGroup g.2)
  (insertionSort (fun a b => decide (b.frequency ≤ a.frequency)) faq_data).take limit

/-! ## System health (`_assess_system_health`, lines 727-762) -/

/-- The health dictionary returned by `_assess_system_health`. -/
structure HealthReport where
  status : String
  issues : List String
  recent_interaction_count : ℕ
  error_rate : ℚ
deriving Repr, DecidableEq

/-- Embeds `_assess_system_health()`: interactions in the last hour, then the
status ladder healthy → warning (no traffic / high volume) → critical
(flagged errors above 10 % of the hour's volume). -/
def assess_system_health (st : AggState) (now : ℚ) : HealthReport :=
  let recent_interactions :=
    st.interaction_logs.filter fun i => decide (now - 1 ≤ i.timestamp)
  let statusIssues :=
    if recent_interactions.length = 0 then ("warning", ["No recent interactions"])
    else if recent_interactions.length > 100 then
      ("warning", ["High interaction volume"])
    else ("healthy", ([] : List String))
  let error_indicators := recent_interactions.filter fun i => i.metadata.errors
  let statusIssues :=
    if (error_indicators.length : ℚ) > (recent_interactions.length : ℚ) * (1 / 10)
    then ("critical", statusIssues.2 ++ ["High error rate"])
    else statusIssues
  { status := statusIssues.1
    issues := statusIssues.2
    recent_interaction_count := recent_interactions.length
    error_rate :=
      if recent_interactions ≠ [] then
        (error_indicators.length : ℚ) / recent_interactions.length
      else 0 }

/-! ## Data model of `TakeawayAgent` (src/agents/takeaway_agent.py) -/

/-- One interaction dictionary of a session transcript, as read by
`analyze_session` and its helpers: each field holds
`interaction.get(key, default)` with a missing key embedded as the default
(`''` for texts, `[]` for concepts, `'text'` for the response format). -/
structure Turn where
  student_message : String
  agent_response : String
  concepts_covered : List String
  response_format : String
  context : String
deriving Repr, DecidableEq, Inhabited

/-- The effectiveness dictionary of `_analyze_session_effectiveness`: the
overall `score`, the four indicator entries (in dict insertion order
student_engagement, concept_understanding, question_resolution,
learning_progression), and the `analysis` text (absent on the
empty-transcript early return). -/
structure EffectivenessAnalysis where
  score : ℚ
  student_engagement : ℚ
  concept_understanding : ℚ
  question_resolution : ℚ
  learning_progression : ℚ
  analysis : Option String
deriving Repr, DecidableEq

/-- Embeds `_calculate_engagement_from_interactions(interactions)`
(lines 586-605). -/
def calculate_engagement_from_interactions (interactions : List Turn) : ℚ :=
  if interactions = [] then 0
  else
    let total_possible : ℕ := interactions.length * 3
    let engagement_indicators : ℕ :=
      (interactions.map fun interaction =>
        let message := pyLower interaction.student_message
        (if strContains message "?" then 1 else 0)
          + (if (pyWords message).length > 10 then 1 else 0)
          + (if strContains message "help" || strContains message "explain" ||
                strContains message "understand" then 1 else 0)).sum
    if total_possible > 0 then (engagement_indicators : ℚ) / total_possible else 0

/-- Embeds `_assess_concept_understanding(interactions)` (lines 607-620). -/
def assess_concept_understanding (interactions : List Turn) : ℚ :=
  let understanding_indicators : ℕ :=
    (interactions.map fun interaction =>
      let message := pyLower interaction.student_message
      if strContains message "i understand" || strContains message "makes sense" ||
          strContains message "i see" then 2
      else if strContains message "got it" || strContains message "clear" ||
          strContains message "okay" then 1
      else 0).sum
  let total_interactions := interactions.length
  if total_interactions > 0 then
    min ((understanding_indicators : ℚ) / (total_interactions * 2)) 1
  else 0

/-- Embeds `_assess_question_resolution(interactions)` (lines 622-629). -/
def assess_question_resolution (interactions : List Turn) : ℚ :=
  let questions :=
    (interactions.filter fun i => strContains i.student_message "?").length
  if questions = 0 then 1
  else min ((interactions.length : ℚ) / (questions * 2)) 1

/-- Embeds `_assess_learning_progression(interactions)` (lines 631-648). -/
def assess_learning_progression (interactions : List Turn) : ℚ :=
  if interactions.length < 2 then 1 / 2
  else
    let half := interactions.length / 2
    let early_complexity :=
      ((interactions.take half).map fun i => i.concepts_covered.length).sum
    let later_complexity :=
      ((interactions.drop half).map fun i => i.concepts_covered.length).sum
    if later_complexity > early_complexity then 4 / 5
    else if later_complexity = early_complexity then 3 / 5
    else 2 / 5

/-- Embeds `_generate_effectiveness_analysis(indicators)` (lines 650-662). -/
def generate_effectiveness_analysis (indicators : List (String × ℚ)) : String :=
  String.intercalate "; " (indicators.map fun p =>
    if p.2 > 7 / 10 then p.1 ++ " was strong"
    else if p.2 > 4 / 10 then p.1 ++ " was moderate"
    else p.1 ++ " needs improvement")

/-- Embeds `_analyze_session_effectiveness(interactions)` (lines 267-303). -/
def analyze_session_effectiveness (interactions : List Turn) :
    EffectivenessAnalysis :=
  if interactions = [] then
    { score := 0, student_engagement := 0, concept_understanding := 0
      question_resolution := 0, learning_progression := 0, analysis := none }
  else
    let engagement_score := calculate_engagement_from_interactions interactions
    let understanding_score := assess_concept_understanding interactions
    let resolution_score := assess_question_resolution interactions
    let progression_score := assess_learning_progression interactions
    let overall_score :=
      (engagement_score + understanding_score + resolution_score +
        progression_score) / 4
    { score := round2 overall_score
      student_engagement := engagement_score
      concept_understanding := understanding_score
      question_resolution := resolution_score
      learning_progression := progression_score
      analysis := some (generate_effectiveness_analysis
        [("student engagement", engagement_score),
         ("concept understanding", understanding_score),
         ("question resolution", resolution_score),
         ("learning progression", progression_score)]) }

/-! ## Breakthrough detection (lines 305-339 and 664-691) -/

/-- A breakthrough dictionary of `_identify_learning_breakthroughs`:
understanding breakthroughs carry a `trigger` key, method breakthroughs a
`method` key; an absent key is `none`. -/
structure Breakthrough where
  type : String
  interaction_index : ℕ
  description : String
  context : List String
  trigger : Option String
  method : Option String
deriving Repr, DecidableEq, Inhabited

/-- Embeds `_identify_breakthrough_trigger(interactions)` (lines 664-678):
`interactions` is the transcript prefix up to and including the breakthrough
turn; with at least two turns the trigger is read off the previous turn's
agent response (`interactions[-2]`). -/
def identify_breakthrough_trigger (interactions : List Turn) : String :=
  if interactions.length < 2 then "initial_explanation"
  else
    let last_agent_response :=
      (interactions.getD (interactions.length - 2) default).agent_response
    if strContains (pyLower last_agent_response) "step" then "step_by_step_explanation"
    else if strContains (pyLower last_agent_response) "example" then "concrete_example"
    else if strContains (pyLower last_agent_response) "video" then "visual_content"
    else "detailed_explanation"

/-- Embeds `_extract_method_from_context(interactions)` (lines 680-691): derives the
method from the response formats of the last 3 turns. -/
def extract_method_from_context (interactions : List Turn) : String :=
  let recent_responses := (takeLast 3 interactions).map (·.response_format)
  if recent_responses.contains "video" then "video_explanation"
  else if recent_responses.contains "step_by_step" then "step_by_step_method"
  else if recent_responses.contains "interactive" then "interactive_practice"
  else "text_explanation"

/-- The understanding-phrase list of `_identify_learning_breakthroughs`. -/
def breakthroughIndicators : List String :=
  ["i understand", "i get it", "now i see", "that makes sense",
   "oh i see", "i got it", "clear now", "understand now"]

/-- Embeds `_identify_learning_breakthroughs(interactions)` (lines 305-339): the
loop index `i` enumerates the transcript, and each trigger/method is derived
from the prefix `interactions[:i+1]`. -/
def identify_learning_breakthroughs (interactions : List Turn) :
    List Breakthrough :=
  interactions.enum.flatMap fun p =>
    let i := p.1
    let student_message := pyLower p.2.student_message
    (if breakthroughIndicators.any (fun ind => strContains student_message ind) then
      [{ type := "understanding_breakthrough"
         interaction_index := i
         description := "Student expressed understanding"
         context := p.2.concepts_covered
         trigger := some (identify_breakthrough_trigger (interactions.take (i + 1)))
         method := none }]
    else []) ++
    (if ["this method", "this way", "this approach"].any
        (fun phrase => strContains student_message phrase) then
      [{ type := "method_breakthrough"
         interaction_index := i
         description := "Student found effective method"
         context := p.2.concepts_covered
         trigger := none
         method := some (extract_method_from_context (interactions.take (i + 1))) }]
    else [])

/-! ## Successful methods (lines 341-370, 693-742) -/

/-- A successful-method dictionary of `_identify_successful_methods`. -/
structure MethodEntry where
  method : String
  concepts : List String
  effectiveness_score : ℚ
  context : String
  student_response_indicators : List String
deriving Repr, DecidableEq, Inhabited

/-- Embeds `_extract_success_indicators(interaction)` (lines 711-724). -/
def extract_success_indicators (interaction : Turn) : List String :=
  let response := pyLower interaction.agent_response
  (if strContains response "step" then ["structured_approach"] else []) ++
  (if strContains response "example" then ["concrete_examples"] else []) ++
  (if response.length > 200 then ["detailed_explanation"] else [])

/-- Embeds `_interaction_led_to_success(interaction, all_interactions)`
(lines 693-709): `all_interactions.index(interaction)` finds the first equal
turn; success indicators are searched in the next two turns. -/
def interaction_led_to_success (interaction : Turn) (all_interactions : List Turn) :
    Bool :=
  let interaction_index := all_interactions.indexOf interaction
  let next_interactions := (all_interactions.drop (interaction_index + 1)).take 2
  next_interactions.any fun next_interaction =>
    let message := pyLower next_interaction.student_message
    strContains message "understand" || strContains message "got it" ||
      strContains message "makes sense"

/-- The method names of `methods`, first occurrence first (Python dict key
insertion order in `_rank_and_deduplicate_methods`). -/
def methodNamesInOrder : List MethodEntry → List String
  | [] => []
  | m :: rest => m.method :: (methodNamesInOrder rest).filter (· ≠ m.method)

/-- Python `max(list, key=...)` returns the first element with the maximal
key. -/
def maxByScoreFirst (m : MethodEntry) (rest : List MethodEntry) : MethodEntry :=
  rest.foldl (fun best x =>
    if x.effectiveness_score > best.effectiveness_score then x else best) m

/-- Embeds `_rank_and_deduplicate_methods(methods)` (lines 726-742): group by method
name, keep the best-scoring instance per group, sort by score descending
(stable). -/
def rank_and_deduplicate_methods (methods : List MethodEntry) :
    List MethodEntry :=
  let ranked_methods := (methodNamesInOrder methods).filterMap fun name =>
    match methods.filter (fun m => m.method = name) with
    | [] => none
    | m :: rest => some (maxByScoreFirst m rest)
  insertionSort (fun a b => decide (b.effectiveness_score ≤ a.effectiveness_score))
    ranked_methods

/-- Embeds `_identify_successful_methods(interactions, effectiveness)`
(lines 341-370). -/
def identify_successful_methods (interactions : List Turn)
    (effectiveness : EffectivenessAnalysis) : List MethodEntry :=
  if effectiveness.score < 6 / 10 then []
  else
    let successful_methods := interactions.filterMap fun interaction =>
      if interaction_led_to_success interaction interactions then
        some { method := interaction.response_format ++ "_explanation"
               concepts := interaction.concepts_covered
               effectiveness_score := effectiveness.score
               context := interaction.context
               student_response_indicators :=
                 extract_success_indicators interaction }
      else none
    rank_and_deduplicate_methods successful_methods

/-! ## Session summary and derived texts (lines 372-504, 744-765) -/

/-- Embeds `_summarize_learning_outcomes(interactions)` (lines 744-765). -/
def summarize_learning_outcomes (interactions : List Turn) : String :=
  let concepts := (interactions.flatMap (·.concepts_covered)).toFinset
  let understanding_count :=
    (interactions.filter fun interaction =>
      let message := pyLower interaction.student_message
      strContains message "understand" || strContains message "got it" ||
        strContains message "clear").length
  let outcomes :=
    (if concepts ≠ ∅ then
      ["explored " ++ toString concepts.card ++ " mathematical concepts"] else []) ++
    (if understanding_count > 0 then
      ["achieved understanding in " ++ toString understanding_count ++ " areas"]
    else [])
  if outcomes ≠ [] then String.intercalate ", " outcomes
  else "general mathematical discussion"

/-- Embeds `_generate_session_summary(...)` (lines 372-405). -/
def generate_session_summary (session_id student_id : String)
    (interactions : List Turn) (concepts : List String) (duration : ℕ) : String :=
  let summary_parts :=
    ["Session " ++ session_id ++ " for student " ++ student_id,
     "Duration: " ++ toString duration ++ " minutes, " ++
       toString interactions.length ++ " interactions"] ++
    (if concepts ≠ [] then
      ["Concepts explored: " ++ String.intercalate ", " concepts] else []) ++
    [if interactions.length > 5 then "Extended learning session with deep exploration"
     else if interactions.length > 2 then "Focused learning session"
     else "Brief learning interaction"] ++
    (let outcomes := summarize_learning_outcomes interactions
     if outcomes ≠ "" then ["Outcomes: " ++ outcomes] else [])
  String.intercalate ". " summary_parts ++ "."

/-- A RAG-store entry dictionary (`_extract_rag_entries`, lines 407-440).
`successful_method` entries carry `method`/`success_rate`/`context` keys,
`breakthrough_pattern` entries carry `breakthrough_type`/`trigger` keys; a
key a dictionary was built without is `none` and reads via `.get` as its
default. -/
structure RagEntry where
  type : String
  content : String
  method : Option String
  breakthrough_type : Option String
  concepts : List String
  success_rate : Option ℚ
  trigger : Option String
  context : Option String
  source_sessions : List String
deriving Repr, DecidableEq, Inhabited

/-- Embeds `_extract_rag_entries(summary, methods, breakthroughs)`
(lines 407-440). -/
def extract_rag_entries (summary : String) (methods : List MethodEntry)
    (breakthroughs : List Breakthrough) : List RagEntry :=
  (methods.map fun method =>
    { type := "successful_method"
      content := "Method '" ++ method.method ++ "' was effective for concepts: " ++
        String.intercalate ", " method.concepts
      method := some method.method
      breakthrough_type := none
      concepts := method.concepts
      success_rate := some method.effectiveness_score
      trigger := none
      context := some method.context
      source_sessions := [summary] }) ++
  (breakthroughs.map fun breakthrough =>
    { type := "breakthrough_pattern"
      content := "Breakthrough of type '" ++ breakthrough.type ++
        "' occurred when working on: " ++
        String.intercalate ", " breakthrough.context
      method := none
      breakthrough_type := some breakthrough.type
      concepts := breakthrough.context
      success_rate := none
      trigger := some (breakthrough.trigger.getD "")
      context := none
      source_sessions := [summary] })

/-- Embeds `_generate_key_insights(interactions, effectiveness)` (lines 442-476). -/
def generate_key_insights (interactions : List Turn)
    (effectiveness : EffectivenessAnalysis) : List String :=
  let score := effectiveness.score
  [if score > 8 / 10 then "Highly effective session with strong student engagement"
   else if score > 6 / 10 then "Good learning session with positive outcomes"
   else if score > 4 / 10 then "Moderate effectiveness - room for improvement"
   else "Low effectiveness - consider different approaches"] ++
  (if interactions.length > 8 then
    ["Student showed persistence with extended interaction"] else []) ++
  (let concepts_covered := (interactions.flatMap (·.concepts_covered)).toFinset
   if concepts_covered.card > 3 then
     ["Session covered multiple mathematical concepts"]
   else if concepts_covered.card = 1 then
     ["Focused deep dive into single concept"]
   else [])

/-- Embeds `_generate_future_recommendations(effectiveness, methods)`
(lines 478-504). -/
def generate_future_recommendations (effectiveness : EffectivenessAnalysis)
    (methods : List MethodEntry) : List String :=
  (if effectiveness.student_engagement < 6 / 10 then
    ["Focus on increasing student engagement through interactive methods"] else []) ++
  (if effectiveness.concept_understanding < 6 / 10 then
    ["Provide more scaffolding and examples for concept explanation"] else []) ++
  (if effectiveness.question_resolution < 6 / 10 then
    ["Ensure student questions are fully addressed before moving on"] else []) ++
  (match methods with
   | [] => []
   | m :: rest =>
     ["Continue using '" ++ (maxByScoreFirst m rest).method ++
       "' as it showed good results"])

/-! ## RAG store and success patterns (lines 506-583, 767-783) -/

/-- Word-overlap ratio of `_find_similar_rag_entry`: shared distinct words
over the token count of the candidate's content. -/
def contentSimilarity (new_content existing_content : String) : ℚ :=
  let new_words := pyWords new_content
  let existing_words := pyWords existing_content
  ((new_words.toFinset ∩ existing_words.toFinset).card : ℚ) /
    max new_words.length 1

/-- Concept-set Jaccard overlap of `_find_similar_rag_entry`. -/
def conceptJaccard (new_concepts existing_concepts : Finset String) : ℚ :=
  ((new_concepts ∩ existing_concepts).card : ℚ) /
    max (new_concepts ∪ existing_concepts).card 1

/-- The similarity test of `_find_similar_rag_entry` (lines 767-783):
word overlap above 0.6 or concept Jaccard above 0.7. -/
def isSimilarRagEntry (new_entry existing_entry : RagEntry) : Bool :=
  contentSimilarity (pyLower new_entry.content) (pyLower existing_entry.content)
      > 6 / 10 ||
    conceptJaccard new_entry.concepts.toFinset existing_entry.concepts.toFinset
      > 7 / 10

/-- The in-place merge of `_update_rag_store` (lines 531-536): extend
`source_sessions` and replace `success_rate` by the average. -/
def mergeRagEntry (existing_entry new_entry : RagEntry) : RagEntry :=
  { existing_entry with
    source_sessions := existing_entry.source_sessions ++ new_entry.source_sessions
    success_rate := some ((existing_entry.success_rate.getD 0 +
      new_entry.success_rate.getD 0) / 2) }

/-- One candidate of the `_update_rag_store` loop: merge into the first
similar existing entry (the one `_find_similar_rag_entry` returns), else
append. -/
def upsertOne : List RagEntry → RagEntry → List RagEntry
  | [], entry => [entry]
  | existing :: rest, entry =>
    if isSimilarRagEntry entry existing then mergeRagEntry existing entry :: rest
    else existing :: upsertOne rest entry

/-- Embeds `_update_rag_store(new_entries)` (lines 524-543): process each candidate,
then truncate the store to the last 500 entries. -/
def update_rag_store (rag_store : List RagEntry) (new_entries : List RagEntry) :
    List RagEntry :=
  let updated := new_entries.foldl upsertOne rag_store
  if updated.length > 500 then takeLast 500 updated else updated

/-- The session takeaways dictionary built by `analyze_session`
(lines 96-109). -/
structure Takeaway where
  session_id : String
  student_id : String
  summary : String
  effectiveness_score : ℚ
  breakthroughs : List Breakthrough
  successful_methods : List MethodEntry
  key_insights : List String
  recommendations : List String
  rag_entries : List RagEntry
  analyzed_at : ℚ
deriving Repr, DecidableEq, Inhabited

/-- One entry of `self.success_patterns[student_id]`
(`_update_success_patterns`, lines 506-522). -/
structure PatternEntry where
  session_id : String
  effectiveness_score : ℚ
  successful_methods : List MethodEntry
  breakthroughs : List Breakthrough
  concepts : List (List String)
  timestamp : ℚ
deriving Repr, DecidableEq, Inhabited

/-- The pattern entry `_update_success_patterns` builds from the takeaways. -/
def mkPatternEntry (takeaways : Takeaway) : PatternEntry :=
  { session_id := takeaways.session_id
    effectiveness_score := takeaways.effectiveness_score
    successful_methods := takeaways.successful_methods
    breakthroughs := takeaways.breakthroughs
    concepts := takeaways.successful_methods.map (·.concepts)
    timestamp := takeaways.analyzed_at }

/-- Embeds `_update_success_patterns(student_id, takeaways)` (lines 506-522):
append, then keep the last 20. -/
def update_success_patterns (sp : String → List PatternEntry)
    (student_id : String) (takeaways : Takeaway) : String → List PatternEntry :=
  let appended := sp student_id ++ [mkPatternEntry takeaways]
  let kept := if appended.length > 20 then takeLast 20 appended else appended
  fun s => if s = student_id then kept else sp s

/-- The mutable state of `TakeawayAgent`. -/
structure TakeawayState where
  session_summaries : String → Option Takeaway
  success_patterns : String → List PatternEntry
  rag_store : List RagEntry

/-- The freshly constructed `TakeawayAgent.__init__` state. -/
def freshTakeaway : TakeawayState :=
  { session_summaries := fun _ => none
    success_patterns := fun _ => []
    rag_store := [] }

/-! ## Insight retrieval (lines 122-167, 545-583) -/

/-- The stop-word set of `_extract_key_terms`. -/
def keyTermStopWords : List String :=
  ["the", "a", "an", "and", "or", "but", "in", "on", "at", "to", "for", "of",
   "with", "by"]

/-- Embeds `_extract_key_terms(text)` (lines 545-554). -/
def extract_key_terms (text : String) : List String :=
  let words := findWordTokens (pyLower text)
  (words.filter fun word =>
    word.length > 3 && !(keyTermStopWords.contains word)).take 10

/-- Embeds `_calculate_relevance_score(rag_entry, question_terms, student_concepts,
student_preferences)` (lines 556-583); `student_preferences` is unused by the
source body. -/
def calculate_relevance_score (rag_entry : RagEntry)
    (question_terms student_concepts : List String) : ℚ :=
  let entry_content := pyLower rag_entry.content
  let term_matches :=
    (question_terms.filter fun term => strContains entry_content term).length
  let term_score : ℚ :=
    if question_terms ≠ [] then (term_matches : ℚ) / question_terms.length else 0
  let concept_matches :=
    (student_concepts.toFinset ∩ rag_entry.concepts.toFinset).card
  let concept_score : ℚ :=
    (concept_matches : ℚ) / max student_concepts.length 1
  let score := term_score * (4 / 10) + concept_score * (4 / 10) +
    rag_entry.success_rate.getD 0 * (2 / 10)
  min score 1

/-- One scored insight returned by `get_relevant_insights`. -/
structure Insight where
  insight : String
  method : String
  success_rate : ℚ
  relevance_score : ℚ
  source_sessions : List String
  applicable_concepts : List String
deriving Repr, DecidableEq, Inhabited

/-- Embeds `get_relevant_insights(student_context, current_question, limit)`
(lines 122-167): score every store entry, keep relevance above 0.3, sort by
relevance descending, return the top `limit`. -/
def get_relevant_insights (st : TakeawayState)
    (recent_concepts : List String) (current_question : String) (limit : ℕ) :
    List Insight :=
  let question_terms := extract_key_terms current_question
  let scored_entries := st.rag_store.filterMap fun entry =>
    let relevance_score :=
      calculate_relevance_score entry question_terms recent_concepts
    if relevance_score > 3 / 10 then some (entry, relevance_score) else none
  let sorted_entries :=
    insertionSort (fun a b => decide (b.2 ≤ a.2)) scored_entries
  (sorted_entries.take limit).map fun p =>
    { insight := p.1.content
      method := p.1.method.getD ""
      success_rate := p.1.success_rate.getD 0
      relevance_score := p.2
      source_sessions := p.1.source_sessions
      applicable_concepts := p.1.concepts }

/-! ## `analyze_session` (lines 47-120) -/

/-- The `session_data` dictionary of `analyze_session`; a missing
`student_id` key is embedded as `""`. -/
structure SessionData where
  student_id : String
  interactions : List Turn
  concepts_covered : List String
  duration_minutes : ℕ
deriving Repr, DecidableEq, Inhabited

/-- The value `analyze_session` returns: either the early
`{'session_id': ..., 'message': ..., 'takeaways': []}` dictionary (empty
transcript) or the full takeaways dictionary. -/
inductive AnalyzeResult where
  | noInteractions (session_id : String) (message : String)
  | analyzed (takeaways : Takeaway)
deriving Repr, DecidableEq

/-- Whether `analyze_session` produced a full takeaways dictionary. -/
def AnalyzeResult.isAnalyzed : AnalyzeResult → Bool
  | .noInteractions _ _ => false
  | .analyzed _ => true

/-- Embeds `analyze_session(session_id, session_data)` (lines 47-120), returning the
updated agent state and the result (`now` embeds `datetime.utcnow()`). -/
def analyze_session (st : TakeawayState) (now : ℚ) (session_id : String)
    (session_data : SessionData) : TakeawayState × AnalyzeResult :=
  let interactions := session_data.interactions
  if interactions = [] then
    (st, .noInteractions session_id "No interactions to analyze")
  else
    let effectiveness_analysis := analyze_session_effectiveness interactions
    let breakthroughs := identify_learning_breakthroughs interactions
    let successful_methods :=
      identify_successful_methods interactions effectiveness_analysis
    let session_summary := generate_session_summary session_id
      session_data.student_id interactions session_data.concepts_covered
      session_data.duration_minutes
    let rag_entries :=
      extract_rag_entries session_summary successful_methods breakthroughs
    let takeaways : Takeaway :=
      { session_id := session_id
        student_id := session_data.student_id
        summary := session_summary
        effectiveness_score := effectiveness_analysis.score
        breakthroughs := breakthroughs
        successful_methods := successful_methods
        key_insights := generate_key_insights interactions effectiveness_analysis
        recommendations :=
          generate_future_recommendations effectiveness_analysis successful_methods
        rag_entries := rag_entries
        analyzed_at := now }
    let st :=
      { session_summaries := fun s =>
          if s = session_id then some takeaways else st.session_summaries s
        success_patterns :=
          update_success_patterns st.success_patterns session_data.student_id
            takeaways
        rag_store := update_rag_store st.rag_store rag_entries }
    (st, .analyzed takeaways)

/-! ## The engine as a state machine (for the bound invariants) -/

/-- The combined analytics-engine state: the aggregation agent and the
takeaway agent. -/
structure EngineState where
  agg : AggState
  tak : TakeawayState

/-- A fresh engine: both agents as constructed by `__init__`. -/
def freshEngine : EngineState :=
  { agg := freshAgg, tak := freshTakeaway }

/-- The engine's mutations: one `log_interaction` ingest, one
`_update_success_patterns` append, one `_update_rag_store` upsert batch. -/
inductive EngineOp where
  | ingest (now : ℚ) (student_id message : String) (response : Response)
      (session_id : String) (metadata : Option Metadata)
  | appendPatterns (student_id : String) (takeaways : Takeaway)
  | upsertRag (entries : List RagEntry)

/-- Apply one mutation to the engine state. -/
def applyOp (st : EngineState) : EngineOp → EngineState
  | .ingest now student_id message response session_id metadata =>
    { st with agg :=
        log_interaction st.agg now student_id message response session_id metadata }
  | .appendPatterns student_id takeaways =>
    let sp := update_success_patterns st.tak.success_patterns student_id takeaways
    { st with tak := { st.tak with success_patterns := sp } }
  | .upsertRag entries =>
    let rs := update_rag_store st.tak.rag_store entries
    { st with tak := { st.tak with rag_store := rs } }

/-- Run a sequence of mutations from a fresh engine. -/
def runOps (ops : List EngineOp) : EngineState := ops.foldl applyOp freshEngine

/-- The interactions a sequence of mutations ingests, in order. -/
def ingestedHistory (ops : List EngineOp) : List Interaction :=
  ops.flatMap fun op =>
    match op with
    | .ingest now student_id message response session_id metadata =>
      [mkInteraction now student_id message response session_id metadata]
    | _ => []

/-! ## Concrete fixtures for the closed instance theorems -/

/-- A concrete agent response tagged with the `algebra` concept. -/
def algebraResponse : Response :=
  { response := "resp"
    concepts_covered := ["algebra"]
    difficulty_level := "medium"
    response_type := "text"
    preference_indicators := [] }

/-- A concrete successful-method RAG entry with success rate 0.7. -/
def sampleRagEntry : RagEntry :=
  { type := "successful_method"
    content := "Method 'text_explanation' was effective for concepts: algebra"
    method := some "text_explanation"
    breakthrough_type := none
    concepts := ["algebra"]
    success_rate := some (7 / 10)
    trigger := none
    context := some ""
    source_sessions := ["summary one"] }

/-- A candidate RAG entry with the same content summary as
`sampleRagEntry` (word overlap 1) but other concepts. -/
def similarRagEntry : RagEntry :=
  { type := "successful_method"
    content := "Method 'text_explanation' was effective for concepts: algebra"
    method := some "text_explanation"
    breakthrough_type := none
    concepts := ["equations"]
    success_rate := some (9 / 10)
    trigger := none
    context := some ""
    source_sessions := ["summary two"] }

/-- A candidate RAG entry sharing no content words and no concepts with
`sampleRagEntry`. -/
def unrelatedRagEntry : RagEntry :=
  { type := "breakthrough_pattern"
    content := "Breakthrough happened during geometry drawing practice"
    method := none
    breakthrough_type := some "understanding_breakthrough"
    concepts := ["geometry"]
    success_rate := none
    trigger := some "visual_content"
    context := none
    source_sessions := ["summary three"] }

/-- An aggregation state holding the given raw log and nothing else. -/
def aggWithLogs (logs : List Interaction) : AggState :=
  { freshAgg with interaction_logs := logs }

/-- A bare interaction fixture at timestamp `t` with the given difficulty
and error flag. -/
def interAt (t : ℚ) (difficulty : String) (err : Bool) : Interaction :=
  { timestamp := t
    student_id := "stu1"
    session_id := "sess1"
    message_length := 5
    response_length := 4
    concepts_covered := []
    difficulty_level := difficulty
    response_type := "text"
    engagement_indicators :=
      { politeness := false, asks_questions := false
        seeks_understanding := false, detailed_response := false }
    learning_indicators := []
    metadata := { errors := err } }

/-- The aggregation state after ingesting the two Scenario-C questions. -/
def faqScenarioState : AggState :=
  log_interaction
    (log_interaction freshAgg 0 "s1" "How do I solve for x?" algebraResponse
      "sess1" none)
    1 "s2" "How can I solve for x??" algebraResponse "sess2" none

/-- The first Scenario-C question as collected for FAQ grouping. -/
def scenarioQuestion1 : Question :=
  { question := "How do I solve for x?", concepts := ["algebra"]
    timestamp := 0, student_id := "s1" }

/-- The second Scenario-C question as collected for FAQ grouping. -/
def scenarioQuestion2 : Question :=
  { question := "How can I solve for x??", concepts := ["algebra"]
    timestamp := 1, student_id := "s2" }

/-- Session data with an empty transcript (Scenario B). -/
def emptySessionData : SessionData :=
  { student_id := "stu1", interactions := [], concepts_covered := []
    duration_minutes := 0 }

/-- A turn whose student message signals understanding. -/
def understandingTurn : Turn :=
  { student_message := "oh i see", agent_response := "great"
    concepts_covered := ["algebra"], response_format := "text", context := "" }

/-- A turn whose agent response offers an example. -/
def exampleTurn : Turn :=
  { student_message := "what is this", agent_response := "here is an example"
    concepts_covered := [], response_format := "text", context := "" }


/-- A takeaway-agent state whose RAG store holds exactly `sampleRagEntry`. -/
def oneEntryStore : TakeawayState :=
  { freshTakeaway with rag_store := [sampleRagEntry] }

/-! ## Helper lemmas -/

theorem length_takeLast (n : ℕ) (l : List α) :
    (takeLast n l).length = l.length - (l.length - n) := by
  simp [takeLast]

theorem takeLast_eq_self_of_le {n : ℕ} {l : List α} (h : l.length ≤ n) :
    takeLast n l = l := by
  simp [takeLast, Nat.sub_eq_zero_of_le h]

theorem cap_length_le (n : ℕ) (l : List α) :
    (if l.length > n then takeLast n l else l).length ≤ n := by
  split
  · rw [length_takeLast]; omega
  · omega

theorem takeLast_cap_append (n : ℕ) (hn : 0 < n) (h : List α) (e : α) :
    (if (takeLast n h ++ [e]).length > n then takeLast n (takeLast n h ++ [e])
      else takeLast n h ++ [e]) = takeLast n (h ++ [e]) := by
  by_cases hle : h.length + 1 ≤ n
  · rw [takeLast_eq_self_of_le (by omega), if_neg (by simp; omega),
      takeLast_eq_self_of_le (by simp; omega)]
  · by_cases heq : h.length + 1 = n + 1
    · rw [takeLast_eq_self_of_le (by omega), if_pos (by simp; omega)]
    · have hgt : n < h.length := by omega
      have hlen : (takeLast n h).length = n := by rw [length_takeLast]; omega
      rw [if_pos (by simp only [List.length_append, hlen, List.length_singleton]; omega)]
      show (takeLast n h ++ [e]).drop ((takeLast n h ++ [e]).length - n) = _
      rw [List.length_append, hlen]
      have h1 : (1 : ℕ) ≤ (takeLast n h).length := by omega
      rw [show n + [e].length - n = 1 by simp,
        List.drop_append_of_le_length h1]
      show ((h.drop (h.length - n)).drop 1) ++ [e] = _
      rw [List.drop_drop]
      show h.drop (h.length - n + 1) ++ [e] = takeLast n (h ++ [e])
      rw [takeLast, List.length_append,
        show h.length + [e].length - n = h.length - n + 1 by simp; omega,
        List.drop_append_of_le_length (by omega)]

theorem insertionSort_of_pairwise {le : α → α → Bool} :
    ∀ {l : List α}, l.Pairwise (fun a b => le a b = true) →
      insertionSort le l = l
  | [], _ => rfl
  | a :: l, h => by
    rw [insertionSort, insertionSort_of_pairwise (List.pairwise_cons.mp h).2]
    cases l with
    | nil => rfl
    | cons b t =>
      have hab : le a b = true :=
        (List.pairwise_cons.mp h).1 b (List.mem_cons_self b t)
      simp [insertSorted, hab]

theorem round2_bounds {x : ℚ} (h0 : 0 ≤ x) (h1 : x ≤ 1) :
    0 ≤ round2 x ∧ round2 x ≤ 1 := by
  have hf0 : (0 : ℤ) ≤ ⌊100 * x + 1 / 2⌋ := by
    rw [Int.le_floor]; push_cast; linarith
  have hf1 : ⌊100 * x + 1 / 2⌋ ≤ 100 := by
    have : (⌊100 * x + 1 / 2⌋ : ℚ) ≤ 100 * x + 1 / 2 := Int.floor_le _
    have hlt : (⌊100 * x + 1 / 2⌋ : ℚ) < 101 := by linarith
    exact_mod_cast Int.lt_add_one_iff.mp (by exact_mod_cast hlt)
  constructor
  · unfold round2
    have : (0 : ℚ) ≤ (⌊100 * x + 1 / 2⌋ : ℚ) := by exact_mod_cast hf0
    positivity
  · unfold round2
    rw [div_le_one (by norm_num)]
    exact_mod_cast hf1

theorem listMean_nonneg {l : List ℚ} (h : ∀ x ∈ l, 0 ≤ x) : 0 ≤ listMean l :=
  div_nonneg (List.sum_nonneg h) (by positivity)

theorem update_success_patterns_length_le (sp : String → List PatternEntry)
    (student_id : String) (takeaways : Takeaway)
    (h : ∀ sid, (sp sid).length ≤ 20) (sid : String) :
    ((update_success_patterns sp student_id takeaways) sid).length ≤ 20 := by
  simp only [update_success_patterns]
  split
  · exact cap_length_le 20 _
  · exact h sid

theorem update_rag_store_length_le (rag_store new_entries : List RagEntry) :
    (update_rag_store rag_store new_entries).length ≤ 500 := by
  simp only [update_rag_store]
  exact cap_length_le 500 _

theorem runOps_invariant (ops : List EngineOp) :
    ∀ (st : EngineState) (hist : List Interaction),
      st.agg.interaction_logs = takeLast 1000 hist →
      st.tak.rag_store.length ≤ 500 →
      (∀ sid, (st.tak.success_patterns sid).length ≤ 20) →
      (ops.foldl applyOp st).agg.interaction_logs =
          takeLast 1000 (hist ++ ingestedHistory ops) ∧
        (ops.foldl applyOp st).tak.rag_store.length ≤ 500 ∧
        ∀ sid, ((ops.foldl applyOp st).tak.success_patterns sid).length ≤ 20 := by
  induction ops with
  | nil =>
    intro st hist h1 h2 h3
    simp only [List.foldl_nil, ingestedHistory, List.flatMap_nil, List.append_nil]
    exact ⟨h1, h2, h3⟩
  | cons op ops ih =>
    intro st hist h1 h2 h3
    rw [List.foldl_cons]
    cases op with
    | ingest now student_id message response session_id metadata =>
      have hlog : (applyOp st
          (.ingest now student_id message response session_id metadata)).agg.interaction_logs =
          takeLast 1000 (hist ++
            [mkInteraction now student_id message response session_id metadata]) := by
        simp only [applyOp, log_interaction, h1]
        exact takeLast_cap_append 1000 (by norm_num) hist _
      have := ih _ _ hlog (by simpa [applyOp] using h2) (by simpa [applyOp] using h3)
      simpa [ingestedHistory] using this
    | appendPatterns student_id takeaways =>
      have := ih (applyOp st (.appendPatterns student_id takeaways)) hist
        (by simpa [applyOp] using h1) (by simpa [applyOp] using h2)
        (fun sid => by
          simp only [applyOp]
          exact update_success_patterns_length_le _ _ _ h3 sid)
      simpa [ingestedHistory] using this
    | upsertRag entries =>
      have := ih (applyOp st (.upsertRag entries)) hist
        (by simpa [applyOp] using h1)
        (by simp only [applyOp]; exact update_rag_store_length_le _ _)
        (by simpa [applyOp] using h3)
      simpa [ingestedHistory] using this

/-- C1: for every sequence of mutations from a fresh engine — ingests,
success-pattern appends, RAG upsert batches — the bounds hold after each
completed mutation: the raw interaction log holds at most 1000 entries and
equals the most recent suffix of everything ingested (oldest evicted first),
the RAG insight store holds at most 500 entries, and every student's
success-pattern history holds at most 20 records. -/
theorem c1_bounded_state_invariant (ops : List EngineOp) :
    (runOps ops).agg.interaction_logs.length ≤ 1000 ∧
      (runOps ops).agg.interaction_logs = takeLast 1000 (ingestedHistory ops) ∧
      (runOps ops).tak.rag_store.length ≤ 500 ∧
      ∀ sid, ((runOps ops).tak.success_patterns sid).length ≤ 20 := by
  have h := runOps_invariant ops freshEngine [] rfl (by simp [freshEngine, freshTakeaway])
    (fun _ => by simp [freshEngine, freshTakeaway])
  obtain ⟨h1, h2, h3⟩ := h
  rw [List.nil_append] at h1
  refine ⟨?_, h1, h2, h3⟩
  rw [show runOps ops = ops.foldl applyOp freshEngine from rfl, h1, length_takeLast]
  omega

theorem round2_mean3_bounds {a b c : ℚ} (ha : 0 ≤ a ∧ a ≤ 1) (hb : 0 ≤ b ∧ b ≤ 1)
    (hc : 0 ≤ c ∧ c ≤ 1) :
    0 ≤ round2 (listMean [a, b, c]) ∧ round2 (listMean [a, b, c]) ≤ 1 := by
  have h : listMean [a, b, c] = (a + b + c) / 3 := by
    simp [listMean]
    ring
  rw [h]
  refine round2_bounds ?_ ?_
  · exact div_nonneg (by linarith [ha.1, hb.1, hc.1]) (by norm_num)
  · rw [div_le_one (by norm_num)]
    linarith [ha.2, hb.2, hc.2]

theorem calculate_engagement_score_bounds (interactions : List Interaction) :
    0 ≤ calculate_engagement_score interactions ∧
      calculate_engagement_score interactions ≤ 1 := by
  unfold calculate_engagement_score
  split
  · norm_num
  · dsimp only
    apply round2_mean3_bounds
    · refine ⟨le_min ?_ zero_le_one, min_le_right _ _⟩
      have havg : (0:ℚ) ≤ listMean (interactions.map fun i => (i.message_length : ℚ)) := by
        apply listMean_nonneg
        intro x hx
        obtain ⟨i, _, rfl⟩ := List.mem_map.mp hx
        positivity
      exact div_nonneg havg (by norm_num)
    · refine ⟨le_min ?_ zero_le_one, min_le_right _ _⟩
      split
      · positivity
      · norm_num
    · constructor
      · split
        · exact le_min (by positivity) zero_le_one
        · norm_num
      · split
        · exact min_le_right _ _
        · norm_num

theorem calculate_engagement_from_interactions_bounds (ts : List Turn) :
    0 ≤ calculate_engagement_from_interactions ts ∧
      calculate_engagement_from_interactions ts ≤ 1 := by
  unfold calculate_engagement_from_interactions
  split
  · norm_num
  · dsimp only
    split
    · rename_i hne hpos
      constructor
      · positivity
      · rw [div_le_one (by positivity)]
        have hsum : (ts.map fun interaction =>
            (if strContains (pyLower interaction.student_message) "?" then 1 else 0)
              + (if (pyWords (pyLower interaction.student_message)).length > 10 then 1 else 0)
              + (if strContains (pyLower interaction.student_message) "help" ||
                    strContains (pyLower interaction.student_message) "explain" ||
                    strContains (pyLower interaction.student_message) "understand"
                 then 1 else 0)).sum ≤ ts.length * 3 := by
          have := List.sum_le_card_nsmul (ts.map fun interaction =>
            (if strContains (pyLower interaction.student_message) "?" then 1 else 0)
              + (if (pyWords (pyLower interaction.student_message)).length > 10 then 1 else 0)
              + (if strContains (pyLower interaction.student_message) "help" ||
                    strContains (pyLower interaction.student_message) "explain" ||
                    strContains (pyLower interaction.student_message) "understand"
                 then 1 else 0)) 3 ?_
          · simpa [smul_eq_mul] using this
          · intro x hx
            obtain ⟨t, _, rfl⟩ := List.mem_map.mp hx
            split <;> split <;> split <;> norm_num
        exact_mod_cast hsum
    · norm_num

theorem assess_concept_understanding_bounds (ts : List Turn) :
    0 ≤ assess_concept_understanding ts ∧ assess_concept_understanding ts ≤ 1 := by
  unfold assess_concept_understanding
  dsimp only
  split
  · exact ⟨le_min (by positivity) zero_le_one, min_le_right _ _⟩
  · norm_num

theorem assess_question_resolution_bounds (ts : List Turn) :
    0 ≤ assess_question_resolution ts ∧ assess_question_resolution ts ≤ 1 := by
  unfold assess_question_resolution
  dsimp only
  split
  · norm_num
  · exact ⟨le_min (by positivity) zero_le_one, min_le_right _ _⟩

theorem assess_learning_progression_bounds (ts : List Turn) :
    0 ≤ assess_learning_progression ts ∧ assess_learning_progression ts ≤ 1 := by
  unfold assess_learning_progression
  split
  · norm_num
  · dsimp only
    split
    · norm_num
    · split <;> norm_num

theorem analyze_session_effectiveness_score_bounds (ts : List Turn) :
    0 ≤ (analyze_session_effectiveness ts).score ∧
      (analyze_session_effectiveness ts).score ≤ 1 := by
  unfold analyze_session_effectiveness
  split
  · norm_num
  · dsimp only
    have h1 := calculate_engagement_from_interactions_bounds ts
    have h2 := assess_concept_understanding_bounds ts
    have h3 := assess_question_resolution_bounds ts
    have h4 := assess_learning_progression_bounds ts
    refine round2_bounds ?_ ?_
    · exact div_nonneg (by linarith [h1.1, h2.1, h3.1, h4.1]) (by norm_num)
    · rw [div_le_one (by norm_num)]
      linarith [h1.2, h2.2, h3.2, h4.2]

theorem calculate_relevance_score_bounds (rag_entry : RagEntry)
    (question_terms student_concepts : List String)
    (h0 : 0 ≤ rag_entry.success_rate.getD 0)
    (h1 : rag_entry.success_rate.getD 0 ≤ 1) :
    0 ≤ calculate_relevance_score rag_entry question_terms student_concepts ∧
      calculate_relevance_score rag_entry question_terms student_concepts ≤ 1 := by
  unfold calculate_relevance_score
  dsimp only
  set ts : ℚ := if question_terms ≠ [] then
      ((question_terms.filter fun term =>
        strContains (pyLower rag_entry.content) term).length : ℚ) /
        question_terms.length
    else 0 with hts
  set cs : ℚ := ((student_concepts.toFinset ∩ rag_entry.concepts.toFinset).card : ℚ) /
      max student_concepts.length 1 with hcs
  have hts0 : 0 ≤ ts := by
    rw [hts]
    split
    · positivity
    · norm_num
  have hts1 : ts ≤ 1 := by
    rw [hts]
    split
    · rename_i hne
      rw [div_le_one (by exact_mod_cast List.length_pos.mpr hne)]
      exact_mod_cast List.length_filter_le _ question_terms
    · norm_num
  have hcs0 : 0 ≤ cs := by rw [hcs]; positivity
  have hcs1 : cs ≤ 1 := by
    rw [hcs, div_le_one (by positivity)]
    have hle : (student_concepts.toFinset ∩ rag_entry.concepts.toFinset).card ≤
        max student_concepts.length 1 :=
      le_trans (le_trans (Finset.card_le_card Finset.inter_subset_left)
        (List.toFinset_card_le student_concepts)) (le_max_left _ _)
    exact_mod_cast hle
  constructor
  · apply le_min _ zero_le_one
    have := rag_entry.success_rate.getD 0
    nlinarith [hts0, hcs0, h0]
  · exact min_le_right _ _

theorem sampleVariance_nonneg {l : List ℚ} (h : 1 < l.length) :
    0 ≤ sampleVariance l := by
  unfold sampleVariance
  apply div_nonneg
  · apply List.sum_nonneg
    intro x hx
    obtain ⟨y, _, rfl⟩ := List.mem_map.mp hx
    positivity
  · have : (2 : ℚ) ≤ l.length := by exact_mod_cast h
    linarith

theorem calculate_consistency_score_bounds (timestamps : List ℚ) :
    0 ≤ calculate_consistency_score timestamps ∧
      calculate_consistency_score timestamps ≤ 1 := by
  unfold calculate_consistency_score
  split
  · norm_num
  · dsimp only
    split
    · norm_num
    · set intervals := consecutiveDiffs
        (insertionSort (fun a b => decide (a ≤ b)) timestamps) with hintervals
      set v : ℚ := if intervals.length > 1 then sampleVariance intervals else 0 with hv
      have hv0 : 0 ≤ v := by
        rw [hv]
        split
        · exact sampleVariance_nonneg (by assumption)
        · norm_num
      split
      · rename_i havg
        have hsq : 0 < listMean intervals ^ 2 := by positivity
        have hratio : 0 ≤ v / listMean intervals ^ 2 := div_nonneg hv0 (le_of_lt hsq)
        refine round2_bounds ?_ ?_
        · positivity
        · rw [div_le_one (by linarith)]
          linarith
      · norm_num

/-- C2: every score is in the closed interval `[0, 1]`: the engagement score
of `_calculate_engagement_score` for every interaction list, the `score`
field of `_analyze_session_effectiveness` for every transcript, the
relevance score of `_calculate_relevance_score` for every query and every
RAG entry whose stored success rate is in `[0, 1]` (the data-model invariant
for `successRate`), and the consistency score of
`_calculate_consistency_score` for every timestamp list. -/
theorem c2_scores_in_unit_interval :
    (∀ interactions : List Interaction,
        0 ≤ calculate_engagement_score interactions ∧
          calculate_engagement_score interactions ≤ 1) ∧
      (∀ ts : List Turn,
        0 ≤ (analyze_session_effectiveness ts).score ∧
          (analyze_session_effectiveness ts).score ≤ 1) ∧
      (∀ (rag_entry : RagEntry) (question_terms student_concepts : List String),
        0 ≤ rag_entry.success_rate.getD 0 → rag_entry.success_rate.getD 0 ≤ 1 →
          0 ≤ calculate_relevance_score rag_entry question_terms student_concepts ∧
            calculate_relevance_score rag_entry question_terms student_concepts ≤ 1) ∧
      ∀ timestamps : List ℚ,
        0 ≤ calculate_consistency_score timestamps ∧
          calculate_consistency_score timestamps ≤ 1 :=
  ⟨calculate_engagement_score_bounds, analyze_session_effectiveness_score_bounds,
    fun e t s h0 h1 => calculate_relevance_score_bounds e t s h0 h1,
    calculate_consistency_score_bounds⟩

/-- Witness for C2: the relevance-score bound applied at a concrete store
entry with success rate 0.7, concrete query terms and student concepts. -/
theorem c2_scores_in_unit_interval_witness :
    (0 : ℚ) ≤ sampleRagEntry.success_rate.getD 0 ∧
      sampleRagEntry.success_rate.getD 0 ≤ 1 ∧
      0 ≤ calculate_relevance_score sampleRagEntry ["math"] ["algebra"] ∧
      calculate_relevance_score sampleRagEntry ["math"] ["algebra"] ≤ 1 :=
  ⟨by norm_num [sampleRagEntry], by norm_num [sampleRagEntry],
    c2_scores_in_unit_interval.2.2.1 sampleRagEntry ["math"] ["algebra"]
      (by norm_num [sampleRagEntry]) (by norm_num [sampleRagEntry])⟩

theorem getLast?_takeLast_append (n : ℕ) (hn : 0 < n) (l : List α) (d : α) :
    (takeLast n (l ++ [d])).getLast? = some d := by
  unfold takeLast
  have hk : (l ++ [d]).length - n ≤ l.length := by simp; omega
  rw [List.drop_append_of_le_length hk, List.getLast?_concat]

/-- C3 counterexample: from a fresh engine, ingesting an event whose
studentId and sessionId are absent (empty) is not rejected — contrary to the
claim, the raw log grows to length 1 and a student aggregate is created for
the empty student id. -/
theorem c3_counterexample :
    (log_interaction freshAgg 0 "" "hi" algebraResponse "" none).interaction_logs.length
        = 1 ∧
      ((log_interaction freshAgg 0 "" "hi" algebraResponse ""
          none).student_metrics "").isSome = true := by
  constructor
  · decide
  · decide

/-- C3 amended: `log_interaction` performs no validation at all.  For every
prior state, an event whose studentId and sessionId are absent (empty) is
still appended as the newest entry of the raw log, and the aggregate
interaction count of the (empty) student id is incremented. -/
theorem c3_ingest_never_rejects (st : AggState) (now : ℚ) (message : String)
    (response : Response) (metadata : Option Metadata) :
    (log_interaction st now "" message response "" metadata).interaction_logs.getLast?
        = some (mkInteraction now "" message response "" metadata) ∧
      ((log_interaction st now "" message response "" metadata).student_metrics "").map
          (·.total_interactions)
        = some ((((st.student_metrics "").map (·.total_interactions)).getD 0) + 1) := by
  constructor
  · simp only [log_interaction]
    split
    · exact getLast?_takeLast_append 1000 (by norm_num) _ _
    · exact List.getLast?_concat _
  · simp only [log_interaction, update_student_metrics]
    cases h : st.student_metrics "" <;> simp [h]

theorem isSimilarRagEntry_iff (e ex : RagEntry) :
    isSimilarRagEntry e ex = true ↔
      (contentSimilarity (pyLower e.content) (pyLower ex.content) > 6 / 10 ∨
        conceptJaccard e.concepts.toFinset ex.concepts.toFinset > 7 / 10) := by
  simp [isSimilarRagEntry]

/-- C4: one candidate of an upsert batch into the RAG store.  If the
candidate's content word-overlap with some existing entry exceeds 0.6, or its
concept-set Jaccard overlap with it exceeds 0.7, the candidate is merged into
a matching existing entry: the store size is unchanged, the matched entry's
source sessions become the union (as sets) of both entries' source sessions,
and its success rate becomes the average of the two.  A candidate matching no
existing entry is appended as a new entry. -/
theorem c4_upsert_merges_or_appends (store : List RagEntry) (e : RagEntry) :
    ((∃ ex ∈ store,
        contentSimilarity (pyLower e.content) (pyLower ex.content) > 6 / 10 ∨
          conceptJaccard e.concepts.toFinset ex.concepts.toFinset > 7 / 10) →
      (upsertOne store e).length = store.length ∧
        ∃ i : Fin store.length,
          (contentSimilarity (pyLower e.content) (pyLower (store.get i).content)
              > 6 / 10 ∨
            conceptJaccard e.concepts.toFinset (store.get i).concepts.toFinset
              > 7 / 10) ∧
            upsertOne store e = store.set i (mergeRagEntry (store.get i) e) ∧
            (∀ s, s ∈ (mergeRagEntry (store.get i) e).source_sessions ↔
              s ∈ (store.get i).source_sessions ∨ s ∈ e.source_sessions) ∧
            (mergeRagEntry (store.get i) e).success_rate =
              some (((store.get i).success_rate.getD 0 + e.success_rate.getD 0) / 2)) ∧
      ((∀ ex ∈ store,
          ¬(contentSimilarity (pyLower e.content) (pyLower ex.content) > 6 / 10 ∨
            conceptJaccard e.concepts.toFinset ex.concepts.toFinset > 7 / 10)) →
        upsertOne store e = store ++ [e]) := by
  induction store with
  | nil =>
    constructor
    · rintro ⟨ex, hex, -⟩
      exact absurd hex (List.not_mem_nil ex)
    · intro
      rfl
  | cons ex rest ih =>
    constructor
    · intro hsim
      by_cases hx : isSimilarRagEntry e ex = true
      · refine ⟨by simp [upsertOne, hx], ⟨0, by simp⟩, ?_, ?_, ?_, ?_⟩
        · simpa using (isSimilarRagEntry_iff e ex).mp hx
        · simp [upsertOne, hx]
        · intro s
          simp [mergeRagEntry]
        · rfl
      · have hmem : ∃ x ∈ rest,
            contentSimilarity (pyLower e.content) (pyLower x.content) > 6 / 10 ∨
              conceptJaccard e.concepts.toFinset x.concepts.toFinset > 7 / 10 := by
          obtain ⟨x, hx1, hx2⟩ := hsim
          rcases List.mem_cons.mp hx1 with rfl | hx1
          · exact absurd ((isSimilarRagEntry_iff e x).mpr hx2) hx
          · exact ⟨x, hx1, hx2⟩
        obtain ⟨hlen, ⟨i, hi⟩, hsimi, hset, hmemiff, hrate⟩ := ih.1 hmem
        refine ⟨?_, ⟨⟨i + 1, by simpa using hi⟩, ?_, ?_, ?_, ?_⟩⟩
        · simp [upsertOne, hx, hlen]
        · simpa using hsimi
        · simp only [upsertOne, hx, if_neg, Bool.false_eq_true, ite_false]
          rw [hset]
          rfl
        · simpa using hmemiff
        · simpa using hrate
    · intro hnone
      have hx : isSimilarRagEntry e ex ≠ true := fun h =>
        hnone ex (List.mem_cons_self ex rest) ((isSimilarRagEntry_iff e ex).mp h)
      have := ih.2 fun x hxr => hnone x (List.mem_cons_of_mem ex hxr)
      simp [upsertOne, hx, this]

/-- Witness for C4: against a store holding one concrete entry, a candidate
with identical content summary (word overlap 1 > 0.6) merges and leaves the
size at 1, and a candidate with disjoint words and concepts is appended. -/
theorem c4_upsert_merges_or_appends_witness :
    (upsertOne [sampleRagEntry] similarRagEntry).length = 1 ∧
      upsertOne [sampleRagEntry] unrelatedRagEntry =
        [sampleRagEntry] ++ [unrelatedRagEntry] := by
  have hlen : (pyWords (pyLower similarRagEntry.content)).length = 7 := by decide
  have hcard : ((pyWords (pyLower similarRagEntry.content)).toFinset ∩
      (pyWords (pyLower sampleRagEntry.content)).toFinset).card = 7 := by decide
  have hsim : contentSimilarity (pyLower similarRagEntry.content)
      (pyLower sampleRagEntry.content) > 6 / 10 := by
    simp only [contentSimilarity]
    rw [hcard, hlen]
    norm_num
  have hulen : (pyWords (pyLower unrelatedRagEntry.content)).length = 6 := by decide
  have hucard : ((pyWords (pyLower unrelatedRagEntry.content)).toFinset ∩
      (pyWords (pyLower sampleRagEntry.content)).toFinset).card = 0 := by decide
  have hjcard : (unrelatedRagEntry.concepts.toFinset ∩
      sampleRagEntry.concepts.toFinset).card = 0 := by decide
  have hjunion : (unrelatedRagEntry.concepts.toFinset ∪
      sampleRagEntry.concepts.toFinset).card = 2 := by decide
  have hnosim : ¬(contentSimilarity (pyLower unrelatedRagEntry.content)
        (pyLower sampleRagEntry.content) > 6 / 10 ∨
      conceptJaccard unrelatedRagEntry.concepts.toFinset
        sampleRagEntry.concepts.toFinset > 7 / 10) := by
    rw [contentSimilarity, conceptJaccard, hucard, hulen, hjcard, hjunion]
    norm_num
  constructor
  · exact ((c4_upsert_merges_or_appends [sampleRagEntry] similarRagEntry).1
      ⟨sampleRagEntry, List.mem_singleton.mpr rfl, Or.inl hsim⟩).1
  · refine (c4_upsert_merges_or_appends [sampleRagEntry] unrelatedRagEntry).2 ?_
    intro ex hex
    rw [List.mem_singleton.mp hex]
    exact hnosim

/-- C5 (code defect): after ingesting the two Scenario-C question events
("How do I solve for x?" and "How can I solve for x??", both tagged
`algebra`), `get_frequently_asked_questions` returns no FAQ group at all —
`log_interaction` stores `message_length` but never the question text, so
the FAQ extraction reads only empty messages.  The two texts do produce the
same group signature with frequency 2 when the collected questions are
grouped directly, as the claim expects. -/
theorem c5_faq_pipeline_loses_questions :
    get_frequently_asked_questions faqScenarioState 10 none = [] ∧
      groupKey scenarioQuestion1 = groupKey scenarioQuestion2 ∧
      (group_similar_questions [scenarioQuestion1, scenarioQuestion2]).map
          (fun g => (g.1, g.2.length)) =
        [(["algebra", "solve"], 2)] := by
  refine ⟨by decide, by decide, by decide⟩

/-- C6 counterexample: on an empty transcript, `analyze_session` does not
return a SessionTakeaway at all (so in particular none with effectiveness
score 0.0): it returns the early no-interactions dictionary. -/
theorem c6_counterexample :
    (analyze_session freshTakeaway 0 "sess1" emptySessionData).2.isAnalyzed = false ∧
      (analyze_session freshTakeaway 0 "sess1" emptySessionData).2 =
        .noInteractions "sess1" "No interactions to analyze" :=
  ⟨rfl, rfl⟩

/-- C6 amended: calling `analyze_session` with an empty turn sequence does
not raise: it returns early with the session id, the message
'No interactions to analyze' and an empty takeaways list, leaving the agent
state unchanged — it builds no SessionTakeaway, so there is no effectiveness
score of 0.0 and no breakthroughs field. -/
theorem c6_empty_transcript_early_return (st : TakeawayState) (now : ℚ)
    (session_id : String) (session_data : SessionData)
    (h : session_data.interactions = []) :
    analyze_session st now session_id session_data =
      (st, .noInteractions session_id "No interactions to analyze") := by
  unfold analyze_session
  rw [h]
  simp

/-- Witness for C6 at the concrete empty-transcript session data. -/
theorem c6_empty_transcript_early_return_witness :
    analyze_session freshTakeaway 0 "sess1" emptySessionData =
      (freshTakeaway, .noInteractions "sess1" "No interactions to analyze") :=
  c6_empty_transcript_early_return freshTakeaway 0 "sess1" emptySessionData rfl

theorem relevance_score_le_of_disjoint (e : RagEntry) (concepts : List String)
    (hsr : e.success_rate.getD 0 ≤ 1)
    (hdisj : ∀ c ∈ concepts, c ∉ e.concepts) :
    calculate_relevance_score e [] concepts ≤ 2 / 10 := by
  unfold calculate_relevance_score
  dsimp only
  have hinter : (concepts.toFinset ∩ e.concepts.toFinset).card = 0 := by
    rw [Finset.card_eq_zero, Finset.eq_empty_iff_forall_not_mem]
    intro c hc
    rw [Finset.mem_inter, List.mem_toFinset, List.mem_toFinset] at hc
    exact hdisj c hc.1 hc.2
  rw [hinter]
  simp only [ne_eq, not_true_eq_false, if_false, List.filter_nil,
    Nat.cast_zero, zero_div, zero_mul, zero_add, ite_false]
  exact le_trans (min_le_left _ _) (by linarith)

/-- C7: when every store entry's stored success rate is at most 1, a query
whose current question yields no extractable key terms and whose student
concepts share no element with any entry's concepts retrieves nothing: no
relevance score `0.4·termOverlap + 0.4·conceptOverlap + 0.2·successRate` can
exceed the strict 0.3 threshold. -/
theorem c7_retrieval_empty_without_overlap (st : TakeawayState)
    (recent_concepts : List String) (current_question : String) (limit : ℕ)
    (hterms : extract_key_terms current_question = [])
    (hsr : ∀ e ∈ st.rag_store, e.success_rate.getD 0 ≤ 1)
    (hconc : ∀ e ∈ st.rag_store, ∀ c ∈ recent_concepts, c ∉ e.concepts) :
    get_relevant_insights st recent_concepts current_question limit = [] := by
  unfold get_relevant_insights
  dsimp only
  rw [hterms]
  have hall : (st.rag_store.filterMap fun entry =>
      if calculate_relevance_score entry [] recent_concepts > 3 / 10 then
        some (entry, calculate_relevance_score entry [] recent_concepts)
      else none) = [] := by
    rw [List.filterMap_eq_nil_iff]
    intro e he
    rw [if_neg]
    push_neg
    exact le_trans (relevance_score_le_of_disjoint e recent_concepts (hsr e he)
      (hconc e he)) (by norm_num)
  rw [hall]
  simp [insertionSort]

/-- Witness for C7: a one-entry store with success rate 0.7, the query
"to do it" (no extractable key terms) and the disjoint concept `geometry`. -/
theorem c7_retrieval_empty_without_overlap_witness :
    get_relevant_insights oneEntryStore ["geometry"] "to do it" 5 = [] :=
  c7_retrieval_empty_without_overlap oneEntryStore ["geometry"] "to do it" 5
    (by decide)
    (fun e he => by
      rw [List.mem_singleton.mp he]
      norm_num [sampleRagEntry])
    (by decide)

/-- C8 counterexample: with a single interaction (one difficulty data point,
hence fewer than 3), `_calculate_learning_progress` does not report the
trend 'insufficient_data': it returns its insufficient-data message
dictionary, which carries no trend at all. -/
theorem c8_counterexample :
    calculate_learning_progress [interAt 0 "medium" false] = .insufficientMessage ∧
      (calculate_learning_progress [interAt 0 "medium" false]).trend ≠
        some "insufficient_data" := by
  refine ⟨by decide, by decide⟩

/-- C8 amended: for every timestamp-sorted interaction sequence, with
difficulties mapped easy→1, medium→2, hard→3 (anything else →2): when there
are more than 3 data points the trend compares the mean of the last 3
against the mean of the remaining earlier values, and with exactly 3 data
points against the first data point — 'advancing' above ×1.1, 'reviewing'
below ×0.9, 'stable' between; with exactly 2 data points the trend is
'insufficient_data'; with fewer than 2 interactions no trend is reported
(the source returns its insufficient-data message dictionary). -/
theorem c8_progress_trend_characterization (interactions : List Interaction)
    (hsorted : interactions.Pairwise fun a b => a.timestamp ≤ b.timestamp) :
    (interactions.length < 2 →
      calculate_learning_progress interactions = .insufficientMessage) ∧
    (interactions.length = 2 →
      (calculate_learning_progress interactions).trend = some "insufficient_data") ∧
    (3 ≤ interactions.length →
      (let prog := interactions.map fun i => difficultyValue i.difficulty_level
       let recent_avg := listMean (takeLast 3 prog)
       let earlier_avg := if prog.length > 3 then
           listMean (prog.take (prog.length - 3))
         else prog.headD 0
       (recent_avg > earlier_avg * (11 / 10) →
         (calculate_learning_progress interactions).trend = some "advancing") ∧
       (recent_avg < earlier_avg * (9 / 10) →
         (calculate_learning_progress interactions).trend = some "reviewing") ∧
       (earlier_avg * (9 / 10) ≤ recent_avg → recent_avg ≤ earlier_avg * (11 / 10) →
         (calculate_learning_progress interactions).trend = some "stable"))) := by
  have hsorteq : insertionSort (fun a b => decide (a.timestamp ≤ b.timestamp))
      interactions = interactions :=
    insertionSort_of_pairwise (hsorted.imp fun h => decide_eq_true h)
  refine ⟨?_, ?_, ?_⟩
  · intro hlt
    unfold calculate_learning_progress
    rw [if_pos hlt]
  · intro h2
    simp only [calculate_learning_progress, hsorteq]
    rw [if_neg (show ¬interactions.length < 2 by omega),
      if_neg (show ¬(interactions.map fun i =>
        difficultyValue i.difficulty_level).length ≥ 3 by simp [h2])]
    rfl
  · intro h3
    dsimp only
    simp only [calculate_learning_progress, hsorteq]
    rw [if_neg (show ¬interactions.length < 2 by omega)]
    set prog := interactions.map fun i => difficultyValue i.difficulty_level
      with hprogdef
    rw [if_pos (show prog.length ≥ 3 by simp [hprogdef, h3])]
    have hmem : ∀ x ∈ prog, (0 : ℚ) ≤ x := by
      intro x hx
      rw [hprogdef] at hx
      obtain ⟨i, _, rfl⟩ := List.mem_map.mp hx
      unfold difficultyValue
      split_ifs <;> norm_num
    have he0 : (0 : ℚ) ≤ (if prog.length > 3 then
        listMean (prog.take (prog.length - 3)) else prog.headD 0) := by
      split
      · exact listMean_nonneg fun x hx => hmem x (List.mem_of_mem_take hx)
      · cases hl : prog with
        | nil => simp
        | cons a t =>
          simp only [List.headD_cons]
          exact hmem a (hl ▸ List.mem_cons_self a t)
    refine ⟨fun ha => ?_, fun hr => ?_, fun hs1 hs2 => ?_⟩
    · rw [if_pos ha]
      rfl
    · rw [if_neg (show ¬listMean (takeLast 3 prog) > (if prog.length > 3 then
          listMean (prog.take (prog.length - 3)) else prog.headD 0) * (11 / 10) by
        push_neg
        linarith),
        if_pos hr]
      rfl
    · rw [if_neg (not_lt.mpr hs2), if_neg (not_lt.mpr hs1)]
      rfl

/-- Witness for C8: four sorted interactions with difficulties
easy, easy, hard, hard — the mean of the last 3 (7/3) exceeds 1.1 × the mean
of the earlier values (1), so the trend is `advancing`. -/
theorem c8_progress_trend_characterization_witness :
    (calculate_learning_progress
        [interAt 0 "easy" false, interAt 1 "easy" false,
         interAt 2 "hard" false, interAt 3 "hard" false]).trend =
      some "advancing" := by
  have hs : ([interAt 0 "easy" false, interAt 1 "easy" false,
      interAt 2 "hard" false, interAt 3 "hard" false]).Pairwise
        (fun a b => a.timestamp ≤ b.timestamp) := by
    norm_num [List.pairwise_cons, interAt]
  have h := (c8_progress_trend_characterization _ hs).2.2 (by norm_num)
  dsimp only at h
  have hmap : ([interAt 0 "easy" false, interAt 1 "easy" false,
      interAt 2 "hard" false, interAt 3 "hard" false].map
        fun i => difficultyValue i.difficulty_level) = [1, 1, 3, 3] := by decide
  rw [hmap] at h
  apply h.1
  norm_num [takeLast, listMean]

/-- C9: the health status defaults to 'healthy'; it is 'warning' when the
last hour holds zero interactions or more than 100; and it is 'critical' —
taking precedence — when the error-flagged interactions of the last hour
exceed 10 % of that hour's interaction count. -/
theorem c9_health_status (st : AggState) (now : ℚ) :
    (let recent := st.interaction_logs.filter fun i => decide (now - 1 ≤ i.timestamp)
     let errs := recent.filter fun i => i.metadata.errors
     ((errs.length : ℚ) > (recent.length : ℚ) * (1 / 10) →
        (assess_system_health st now).status = "critical") ∧
      ((errs.length : ℚ) ≤ (recent.length : ℚ) * (1 / 10) →
        (recent.length = 0 ∨ recent.length > 100) →
        (assess_system_health st now).status = "warning") ∧
      ((errs.length : ℚ) ≤ (recent.length : ℚ) * (1 / 10) →
        0 < recent.length → recent.length ≤ 100 →
        (assess_system_health st now).status = "healthy")) := by
  dsimp only
  simp only [assess_system_health]
  set recent := st.interaction_logs.filter fun i => decide (now - 1 ≤ i.timestamp)
    with hrecdef
  set errs := recent.filter fun i => i.metadata.errors with herrdef
  refine ⟨fun hcrit => ?_, fun hle hcnt => ?_, fun hle h0 h100 => ?_⟩
  · rw [if_pos hcrit]
  · rw [if_neg (not_lt.mpr hle)]
    rcases hcnt with h0 | h100
    · rw [if_pos h0]
    · rw [if_neg (show ¬recent.length = 0 by omega), if_pos h100]
  · rw [if_neg (not_lt.mpr hle), if_neg (show ¬recent.length = 0 by omega),
      if_neg (show ¬recent.length > 100 by omega)]

/-- Witness for C9: three one-state instances — an all-errors hour is
critical, an empty hour is a warning, and a quiet error-free hour is
healthy. -/
theorem c9_health_status_witness :
    (assess_system_health (aggWithLogs [interAt 0 "medium" true]) 0).status
        = "critical" ∧
      (assess_system_health freshAgg 0).status = "warning" ∧
      (assess_system_health (aggWithLogs [interAt 0 "medium" false]) 0).status
        = "healthy" := by
  have hrecT : ([interAt 0 "medium" true].filter
      fun i => decide ((0 : ℚ) - 1 ≤ i.timestamp)) = [interAt 0 "medium" true] := by
    rw [List.filter_eq_self]
    intro a ha
    rw [List.mem_singleton.mp ha]
    exact decide_eq_true (by norm_num [interAt])
  have hrecF : ([interAt 0 "medium" false].filter
      fun i => decide ((0 : ℚ) - 1 ≤ i.timestamp)) = [interAt 0 "medium" false] := by
    rw [List.filter_eq_self]
    intro a ha
    rw [List.mem_singleton.mp ha]
    exact decide_eq_true (by norm_num [interAt])
  refine ⟨?_, ?_, ?_⟩
  · have h := c9_health_status (aggWithLogs [interAt 0 "medium" true]) 0
    dsimp only at h
    rw [show (aggWithLogs [interAt 0 "medium" true]).interaction_logs =
        [interAt 0 "medium" true] from rfl, hrecT] at h
    exact h.1 (by norm_num [interAt])
  · have h := c9_health_status freshAgg 0
    dsimp only at h
    rw [show freshAgg.interaction_logs = ([] : List Interaction) from rfl] at h
    exact h.2.1 (by norm_num) (Or.inl (by simp))
  · have h := c9_health_status (aggWithLogs [interAt 0 "medium" false]) 0
    dsimp only at h
    rw [show (aggWithLogs [interAt 0 "medium" false]).interaction_logs =
        [interAt 0 "medium" false] from rfl, hrecF] at h
    exact h.2.2 (by norm_num [interAt]) (by norm_num) (by norm_num)

theorem identify_breakthrough_trigger_mem (ts : List Turn) (h : 2 ≤ ts.length) :
    identify_breakthrough_trigger ts ∈
      ["step_by_step_explanation", "concrete_example", "visual_content",
       "detailed_explanation"] := by
  unfold identify_breakthrough_trigger
  rw [if_neg (by omega)]
  dsimp only
  split_ifs <;> simp

/-- C10: an understanding breakthrough detected at interaction index 0 gets
the trigger `initial_explanation` — a value outside the four enumerated
triggers — because no previous agent response exists; the four enumerated
triggers (step_by_step_explanation, concrete_example, visual_content,
detailed_explanation) arise exactly for breakthroughs at index ≥ 1, where
they are read off the previous turn's agent response. -/
theorem c10_breakthrough_trigger (interactions : List Turn) (b : Breakthrough)
    (hb : b ∈ identify_learning_breakthroughs interactions)
    (hu : b.type = "understanding_breakthrough") :
    (b.interaction_index = 0 →
      b.trigger = some "initial_explanation" ∧
        "initial_explanation" ∉ ["step_by_step_explanation", "concrete_example",
          "visual_content", "detailed_explanation"]) ∧
    (1 ≤ b.interaction_index →
      ∃ t ∈ ["step_by_step_explanation", "concrete_example", "visual_content",
        "detailed_explanation"], b.trigger = some t) := by
  unfold identify_learning_breakthroughs at hb
  rw [List.mem_flatMap] at hb
  obtain ⟨⟨i, t⟩, hp, hbp⟩ := hb
  have hi : i < interactions.length := (List.mem_enum hp).1
  dsimp only at hbp
  rw [List.mem_append] at hbp
  rcases hbp with h1 | h1
  · split at h1
    · rw [List.mem_singleton] at h1
      subst h1
      dsimp only
      constructor
      · intro h0
        subst h0
        refine ⟨?_, by decide⟩
        have htrig : identify_breakthrough_trigger (interactions.take (0 + 1)) =
            "initial_explanation" := by
          unfold identify_breakthrough_trigger
          rw [if_pos (by simp [List.length_take])]
        rw [htrig]
      · intro hge
        have h2 : 2 ≤ (interactions.take (i + 1)).length := by
          simp only [List.length_take]
          omega
        exact ⟨_, identify_breakthrough_trigger_mem _ h2, rfl⟩
    · exact absurd h1 (List.not_mem_nil b)
  · split at h1
    · rw [List.mem_singleton] at h1
      subst h1
      simp at hu
    · exact absurd h1 (List.not_mem_nil b)

/-- Witness for C10: a one-turn transcript yields an understanding
breakthrough at index 0 with trigger `initial_explanation`; a two-turn
transcript whose first agent response offers an example yields one at index
1 whose trigger is among the four enumerated values. -/
theorem c10_breakthrough_trigger_witness :
    (({ type := "understanding_breakthrough", interaction_index := 0
        description := "Student expressed understanding", context := ["algebra"]
        trigger := some "initial_explanation", method := none } : Breakthrough)
      ∈ identify_learning_breakthroughs [understandingTurn]) ∧
    (({ type := "understanding_breakthrough", interaction_index := 0
        description := "Student expressed understanding", context := ["algebra"]
        trigger := some "initial_explanation", method := none } : Breakthrough).trigger
      = some "initial_explanation") ∧
    (({ type := "understanding_breakthrough", interaction_index := 1
        description := "Student expressed understanding", context := ["algebra"]
        trigger := some "concrete_example", method := none } : Breakthrough)
      ∈ identify_learning_breakthroughs [exampleTurn, understandingTurn]) ∧
    ∃ t ∈ ["step_by_step_explanation", "concrete_example", "visual_content",
      "detailed_explanation"],
      ({ type := "understanding_breakthrough", interaction_index := 1
         description := "Student expressed understanding", context := ["algebra"]
         trigger := some "concrete_example", method := none } : Breakthrough).trigger
        = some t :=
  ⟨by decide,
    ((c10_breakthrough_trigger [understandingTurn] _ (by decide) rfl).1 rfl).1,
    by decide,
    (c10_breakthrough_trigger [exampleTurn, understandingTurn] _ (by decide) rfl).2
      (by norm_num)⟩
